import Mathlib

/-!
Shallow embedding of the fitness-tracker backend (`src/db/tables.ts`).

The source defines two Astro DB tables (`WorkoutSessions`, `WorkoutExercises`)
and seven server actions operating on them.  We model the database as a
`Store` holding the rows of both tables as lists (in insertion order), and
each action as a pure function from the caller context, the (already typed)
input, the oracle values the runtime supplies (`randomUUID()` results and
`new Date()` timestamps) and the current store to a result together with the
resulting store.

Modelling decisions:
 * dates are `Int` timestamps;
 * `z.number().int()` columns are `Int`; plain `z.number()` columns
   (weights, distances, durations, calories of an exercise) are `Rat`;
 * the zod input schema of `defineAction` is a boolean validity predicate;
   the framework checks it before the handler runs, so each embedded action
   checks it before resolving the caller, mirroring `defineAction` semantics;
 * throwing an `ActionError` is returning `Except.error` of the error code
   together with the store as it was at the throw point;
 * `db.select(...).where(p)` is `List.filter`, `const [x] = ...` takes the
   head of the returned list, `db.update.set(u).where(p)` maps the update
   over matching rows, `db.delete.where(p)` drops matching rows, and
   `db.insert.values(v)` appends.
-/

namespace FitnessTracker

/-- A row of the `WorkoutSessions` table. -/
structure WorkoutSession where
  id : String
  userId : String
  title : Option String
  workoutDate : Int
  startTime : Option Int
  endTime : Option Int
  workoutType : Option String
  notes : Option String
  totalDurationMinutes : Option Int
  totalCalories : Option Int
  createdAt : Int
  updatedAt : Int
deriving Repr, DecidableEq

/-- A row of the `WorkoutExercises` table. -/
structure WorkoutExercise where
  id : String
  sessionId : String
  userId : String
  name : String
  category : Option String
  sets : Option Int
  repsPerSet : Option Int
  weightPerRep : Option Rat
  distanceKm : Option Rat
  durationMinutes : Option Rat
  caloriesBurned : Option Rat
  notes : Option String
  createdAt : Int
deriving Repr, DecidableEq

/-- The persistent store: the rows of both tables, in insertion order. -/
structure Store where
  sessions : List WorkoutSession
  exercises : List WorkoutExercise
deriving Repr, DecidableEq

/-- Primary-key well-formedness: `id` is the primary key of both tables,
so the stored ids are pairwise distinct. -/
def Store.WF (s : Store) : Prop :=
  (s.sessions.map (fun r => r.id)).Nodup ∧ (s.exercises.map (fun e => e.id)).Nodup

/-- The `code` of an `ActionError`, plus the invalid-input rejection the
framework produces when the zod schema rejects the raw input. -/
inductive ErrKind where
  | unauthorized
  | notFound
  | invalidInput
deriving Repr, DecidableEq

/-- The caller context: `some uid` when `context.locals.user` is present. -/
abbrev Ctx := Option String

/-- `requireUser` (src/db/tables.ts:70): throw `UNAUTHORIZED` when no user. -/
def requireUser (ctx : Ctx) : Except ErrKind String :=
  match ctx with
  | none => .error .unauthorized
  | some uid => .ok uid

/-- The `where` clause used for session lookup, update and delete:
`and(eq(WorkoutSessions.id, sid), eq(WorkoutSessions.userId, uid))`. -/
def sessionKey (sid uid : String) (r : WorkoutSession) : Bool :=
  r.id == sid && r.userId == uid

/-- The `where` clause `and(eq(WorkoutExercises.id, eid), eq(WorkoutExercises.userId, uid))`. -/
def exerciseKey (eid uid : String) (e : WorkoutExercise) : Bool :=
  e.id == eid && e.userId == uid

/-- The `where` clause `and(eq(WorkoutExercises.sessionId, sid), eq(WorkoutExercises.userId, uid))`. -/
def exerciseBySession (sid uid : String) (e : WorkoutExercise) : Bool :=
  e.sessionId == sid && e.userId == uid

/-- `getSessionForUser` (src/db/tables.ts:84): select by id and userId,
take the first row, throw `NOT_FOUND` when there is none. -/
def getSessionForUser (sid uid : String) (s : Store) : Except ErrKind WorkoutSession :=
  match s.sessions.filter (sessionKey sid uid) with
  | [] => .error .notFound
  | r :: _ => .ok r

/-- The optional session fields shared by the `createWorkoutSession` and
`updateWorkoutSession` input schemas. -/
structure SessionFields where
  title : Option String
  workoutDate : Option Int
  startTime : Option Int
  endTime : Option Int
  workoutType : Option String
  notes : Option String
  totalDurationMinutes : Option Int
  totalCalories : Option Int
deriving Repr, DecidableEq

/-- `z.string().min(1).optional()`. -/
def validOptMin1 : Option String → Bool
  | none => true
  | some t => decide (1 ≤ t.length)

/-- `z.number().int().positive().optional()`. -/
def validOptPosInt : Option Int → Bool
  | none => true
  | some n => decide (0 < n)

/-- `z.number().int().nonnegative().optional()`. -/
def validOptNonnegInt : Option Int → Bool
  | none => true
  | some n => decide (0 ≤ n)

/-- `z.number().positive().optional()`. -/
def validOptPosRat : Option Rat → Bool
  | none => true
  | some q => decide (0 < q)

/-- `z.number().nonnegative().optional()`. -/
def validOptNonnegRat : Option Rat → Bool
  | none => true
  | some q => decide (0 ≤ q)

/-- The constrained part of the session input schemas: `title` and
`workoutType` need `min(1)`, `totalDurationMinutes` must be positive,
`totalCalories` nonnegative; dates and `notes` are unconstrained. -/
def validSessionFields (f : SessionFields) : Bool :=
  validOptMin1 f.title && validOptMin1 f.workoutType &&
    validOptPosInt f.totalDurationMinutes && validOptNonnegInt f.totalCalories

/-- The `updateData` object of `updateWorkoutSession` (src/db/tables.ts:155):
`updatedAt` is always set; every other column is set exactly when the
corresponding input field is defined. -/
structure SessionUpdateData where
  updatedAt : Int
  title : Option String
  workoutDate : Option Int
  startTime : Option Int
  endTime : Option Int
  workoutType : Option String
  notes : Option String
  totalDurationMinutes : Option Int
  totalCalories : Option Int
deriving Repr, DecidableEq

/-- Building `updateData` from the input (the chain of
`if (input.x !== undefined) updateData.x = input.x`). -/
def mkSessionUpdateData (f : SessionFields) (now : Int) : SessionUpdateData :=
  { updatedAt := now
    title := f.title
    workoutDate := f.workoutDate
    startTime := f.startTime
    endTime := f.endTime
    workoutType := f.workoutType
    notes := f.notes
    totalDurationMinutes := f.totalDurationMinutes
    totalCalories := f.totalCalories }

/-- `db.update(WorkoutSessions).set(updateData)` applied to one row:
a column present in `updateData` is overwritten, the rest keep their value. -/
def applySessionUpdate (u : SessionUpdateData) (r : WorkoutSession) : WorkoutSession :=
  { r with
    updatedAt := u.updatedAt
    title := match u.title with | some t => some t | none => r.title
    workoutDate := u.workoutDate.getD r.workoutDate
    startTime := match u.startTime with | some t => some t | none => r.startTime
    endTime := match u.endTime with | some t => some t | none => r.endTime
    workoutType := match u.workoutType with | some t => some t | none => r.workoutType
    notes := match u.notes with | some t => some t | none => r.notes
    totalDurationMinutes :=
      match u.totalDurationMinutes with | some n => some n | none => r.totalDurationMinutes
    totalCalories := match u.totalCalories with | some n => some n | none => r.totalCalories }

/-- `createWorkoutSession` (src/db/tables.ts:101).  `freshId` is the
`randomUUID()` result, `now` the `new Date()` value. -/
def createWorkoutSession (ctx : Ctx) (f : SessionFields) (freshId : String) (now : Int)
    (s : Store) : Except ErrKind WorkoutSession × Store :=
  if !validSessionFields f then (.error .invalidInput, s)
  else
    match requireUser ctx with
    | .error e => (.error e, s)
    | .ok uid =>
      let session : WorkoutSession :=
        { id := freshId
          userId := uid
          title := f.title
          workoutDate := f.workoutDate.getD now
          startTime := f.startTime
          endTime := f.endTime
          workoutType := f.workoutType
          notes := f.notes
          totalDurationMinutes := f.totalDurationMinutes
          totalCalories := f.totalCalories
          createdAt := now
          updatedAt := now }
      (.ok session, { s with sessions := s.sessions ++ [session] })

/-- Input of `updateWorkoutSession`: the session id plus the optional fields. -/
structure UpdateSessionInput where
  id : String
  fields : SessionFields
deriving Repr, DecidableEq

/-- `updateWorkoutSession` (src/db/tables.ts:139).  The returned record is
the row re-selected after the update (`undefined`, i.e. `none`, if absent). -/
def updateWorkoutSession (ctx : Ctx) (inp : UpdateSessionInput) (now : Int)
    (s : Store) : Except ErrKind (Option WorkoutSession) × Store :=
  if !validSessionFields inp.fields then (.error .invalidInput, s)
  else
    match requireUser ctx with
    | .error e => (.error e, s)
    | .ok uid =>
      match getSessionForUser inp.id uid s with
      | .error e => (.error e, s)
      | .ok _ =>
        let u := mkSessionUpdateData inp.fields now
        let sessions2 := s.sessions.map
          (fun r => if sessionKey inp.id uid r then applySessionUpdate u r else r)
        ((.ok ((sessions2.filter (sessionKey inp.id uid)).head?)),
          { s with sessions := sessions2 })

/-- `deleteWorkoutSession` (src/db/tables.ts:186): after the ownership check,
delete the matching exercises, then the session, and return the input id. -/
def deleteWorkoutSession (ctx : Ctx) (sid : String) (s : Store) :
    Except ErrKind String × Store :=
  match requireUser ctx with
  | .error e => (.error e, s)
  | .ok uid =>
    match getSessionForUser sid uid s with
    | .error e => (.error e, s)
    | .ok _ =>
      let exercises2 := s.exercises.filter (fun e => !exerciseBySession sid uid e)
      let sessions2 := s.sessions.filter (fun r => !sessionKey sid uid r)
      (.ok sid, { sessions := sessions2, exercises := exercises2 })

/-- Input of `listMyWorkoutSessions` before the zod defaults are applied. -/
structure ListInput where
  page : Option Int
  pageSize : Option Int
deriving Repr, DecidableEq

/-- `page` must be a positive int if supplied; `pageSize` positive and at
most 100 if supplied (`z.number().int().positive().max(100).default(20)`). -/
def validListInput (i : ListInput) : Bool :=
  validOptPosInt i.page &&
    (match i.pageSize with
     | none => true
     | some n => decide (0 < n) && decide (n ≤ 100))

/-- The `data` object returned by `listMyWorkoutSessions`. -/
structure ListResult where
  items : List WorkoutSession
  total : Nat
  page : Int
  pageSize : Int
deriving Repr, DecidableEq

/-- `listMyWorkoutSessions` (src/db/tables.ts:209): select the caller's
sessions with `limit(pageSize)` and `offset((page-1)*pageSize)`; `total`
is `sessions.length` of the selected page. -/
def listMyWorkoutSessions (ctx : Ctx) (i : ListInput) (s : Store) :
    Except ErrKind ListResult × Store :=
  if !validListInput i then (.error .invalidInput, s)
  else
    match requireUser ctx with
    | .error e => (.error e, s)
    | .ok uid =>
      let page := i.page.getD 1
      let pageSize := i.pageSize.getD 20
      let offset := (page - 1) * pageSize
      let sessions :=
        (((s.sessions.filter (fun r => r.userId == uid)).drop offset.toNat).take
          pageSize.toNat)
      ((.ok { items := sessions, total := sessions.length, page := page,
              pageSize := pageSize }), s)

/-- `getWorkoutSessionWithExercises` (src/db/tables.ts:237). -/
def getWorkoutSessionWithExercises (ctx : Ctx) (sid : String) (s : Store) :
    Except ErrKind (WorkoutSession × List WorkoutExercise) × Store :=
  match requireUser ctx with
  | .error e => (.error e, s)
  | .ok uid =>
    match getSessionForUser sid uid s with
    | .error e => (.error e, s)
    | .ok session =>
      ((.ok (session, s.exercises.filter (exerciseBySession sid uid))), s)

/-- Input of `upsertWorkoutExercise`. -/
structure UpsertExerciseInput where
  id : Option String
  sessionId : String
  name : String
  category : Option String
  sets : Option Int
  repsPerSet : Option Int
  weightPerRep : Option Rat
  distanceKm : Option Rat
  durationMinutes : Option Rat
  caloriesBurned : Option Rat
  notes : Option String
deriving Repr, DecidableEq

/-- The constrained part of the `upsertWorkoutExercise` schema. -/
def validUpsertExerciseInput (i : UpsertExerciseInput) : Bool :=
  decide (1 ≤ i.name.length) && validOptPosInt i.sets && validOptPosInt i.repsPerSet &&
    validOptPosRat i.weightPerRep && validOptPosRat i.distanceKm &&
    validOptPosRat i.durationMinutes && validOptNonnegRat i.caloriesBurned

/-- The `updateData` object of the update branch of `upsertWorkoutExercise`
(src/db/tables.ts:288): `sessionId` and `name` always set, the rest set
exactly when the input field is defined. -/
structure ExerciseUpdateData where
  sessionId : String
  name : String
  category : Option String
  sets : Option Int
  repsPerSet : Option Int
  weightPerRep : Option Rat
  distanceKm : Option Rat
  durationMinutes : Option Rat
  caloriesBurned : Option Rat
  notes : Option String
deriving Repr, DecidableEq

/-- Building the exercise `updateData` from the input. -/
def mkExerciseUpdateData (i : UpsertExerciseInput) : ExerciseUpdateData :=
  { sessionId := i.sessionId
    name := i.name
    category := i.category
    sets := i.sets
    repsPerSet := i.repsPerSet
    weightPerRep := i.weightPerRep
    distanceKm := i.distanceKm
    durationMinutes := i.durationMinutes
    caloriesBurned := i.caloriesBurned
    notes := i.notes }

/-- `db.update(WorkoutExercises).set(updateData)` applied to one row:
`id`, `userId` and `createdAt` are not in `updateData` and keep their value. -/
def applyExerciseUpdate (u : ExerciseUpdateData) (e : WorkoutExercise) : WorkoutExercise :=
  { e with
    sessionId := u.sessionId
    name := u.name
    category := match u.category with | some t => some t | none => e.category
    sets := match u.sets with | some n => some n | none => e.sets
    repsPerSet := match u.repsPerSet with | some n => some n | none => e.repsPerSet
    weightPerRep := match u.weightPerRep with | some q => some q | none => e.weightPerRep
    distanceKm := match u.distanceKm with | some q => some q | none => e.distanceKm
    durationMinutes :=
      match u.durationMinutes with | some q => some q | none => e.durationMinutes
    caloriesBurned :=
      match u.caloriesBurned with | some q => some q | none => e.caloriesBurned
    notes := match u.notes with | some t => some t | none => e.notes }

/-- The insert branch of `upsertWorkoutExercise` (src/db/tables.ts:318). -/
def insertWorkoutExercise (uid : String) (i : UpsertExerciseInput) (freshId : String)
    (now : Int) (s : Store) : Except ErrKind (Option WorkoutExercise) × Store :=
  let exercise : WorkoutExercise :=
    { id := freshId
      sessionId := i.sessionId
      userId := uid
      name := i.name
      category := i.category
      sets := i.sets
      repsPerSet := i.repsPerSet
      weightPerRep := i.weightPerRep
      distanceKm := i.distanceKm
      durationMinutes := i.durationMinutes
      caloriesBurned := i.caloriesBurned
      notes := i.notes
      createdAt := now }
  ((.ok (some exercise)), { s with exercises := s.exercises ++ [exercise] })

/-- `upsertWorkoutExercise` (src/db/tables.ts:257).  The branch test
`if (input.id)` is JavaScript truthiness: a supplied but *empty* id string
is falsy and also takes the insert branch. -/
def upsertWorkoutExercise (ctx : Ctx) (i : UpsertExerciseInput) (freshId : String)
    (now : Int) (s : Store) : Except ErrKind (Option WorkoutExercise) × Store :=
  if !validUpsertExerciseInput i then (.error .invalidInput, s)
  else
    match requireUser ctx with
    | .error e => (.error e, s)
    | .ok uid =>
      match getSessionForUser i.sessionId uid s with
      | .error e => (.error e, s)
      | .ok _ =>
        match i.id with
        | some eid =>
          if eid.isEmpty then insertWorkoutExercise uid i freshId now s
          else
            match s.exercises.filter (exerciseKey eid uid) with
            | [] => (.error .notFound, s)
            | _ :: _ =>
              let u := mkExerciseUpdateData i
              let exercises2 := s.exercises.map
                (fun e => if exerciseKey eid uid e then applyExerciseUpdate u e else e)
              ((.ok ((exercises2.filter (exerciseKey eid uid)).head?)),
                { s with exercises := exercises2 })
        | none => insertWorkoutExercise uid i freshId now s

/-- `deleteWorkoutExercise` (src/db/tables.ts:343). -/
def deleteWorkoutExercise (ctx : Ctx) (eid : String) (s : Store) :
    Except ErrKind String × Store :=
  match requireUser ctx with
  | .error e => (.error e, s)
  | .ok uid =>
    match s.exercises.filter (exerciseKey eid uid) with
    | [] => (.error .notFound, s)
    | _ :: _ =>
      ((.ok eid), { s with exercises := s.exercises.filter (fun e => !exerciseKey eid uid e) })

/-- The session fields of an update request that supplies no field. -/
def emptySessionFields : SessionFields :=
  { title := none
    workoutDate := none
    startTime := none
    endTime := none
    workoutType := none
    notes := none
    totalDurationMinutes := none
    totalCalories := none }

/-! ### Concrete fixtures used by the witness theorems -/

/-- The empty store. -/
def emptyStore : Store := { sessions := [], exercises := [] }

/-- A concrete session row with the given id and owner. -/
def sampleSession (sid uid : String) : WorkoutSession :=
  { id := sid
    userId := uid
    title := none
    workoutDate := 0
    startTime := none
    endTime := none
    workoutType := none
    notes := none
    totalDurationMinutes := none
    totalCalories := none
    createdAt := 0
    updatedAt := 0 }

/-- A concrete exercise row with the given id, parent session and owner. -/
def sampleExercise (eid sid uid : String) : WorkoutExercise :=
  { id := eid
    sessionId := sid
    userId := uid
    name := "Bench Press"
    category := none
    sets := none
    repsPerSet := none
    weightPerRep := none
    distanceKm := none
    durationMinutes := none
    caloriesBurned := none
    notes := none
    createdAt := 0 }

/-- An exercise-upsert input with only the required fields supplied. -/
def sampleUpsertInput (oid : Option String) (sid : String) : UpsertExerciseInput :=
  { id := oid
    sessionId := sid
    name := "Bench Press"
    category := none
    sets := none
    repsPerSet := none
    weightPerRep := none
    distanceKm := none
    durationMinutes := none
    caloriesBurned := none
    notes := none }

/-! ### Helper lemmas -/

/-- Filtering by a predicate that pins down the key of a row, in a list
whose keys are pairwise distinct and that contains a matching row `r`,
returns exactly `[r]`. -/
theorem filter_eq_singleton_of_key {α β : Type} [DecidableEq β] (key : α → β)
    (p : α → Bool) (l : List α) (r : α)
    (hn : (l.map key).Nodup) (hr : r ∈ l) (hp : p r = true)
    (hkey : ∀ x, p x = true → key x = key r) :
    l.filter p = [r] := by
  induction l with
  | nil => cases hr
  | cons a t ih =>
    rw [List.map_cons, List.nodup_cons] at hn
    rcases List.mem_cons.mp hr with rfl | hrt
    · rw [List.filter_cons_of_pos hp]
      have ht : t.filter p = [] := by
        rw [List.filter_eq_nil_iff]
        intro x hx hpx
        exact hn.1 (hkey x hpx ▸ List.mem_map_of_mem key hx)
      rw [ht]
    · have hpa : p a = false := by
        cases hpaq : p a with
        | false => rfl
        | true =>
          exfalso
          apply hn.1
          rw [hkey a hpaq]
          exact List.mem_map_of_mem key hrt
      rw [List.filter_cons_of_neg (by simp [hpa]), ih hn.2 hrt]

/-- Filtering after a guarded in-place map: when the update `f` preserves
the selection predicate, selecting the updated rows is updating the
selected rows. -/
theorem filter_map_update {α : Type} (p : α → Bool) (f : α → α) (l : List α)
    (hpf : ∀ x, p x = true → p (f x) = true) :
    (l.map (fun x => if p x then f x else x)).filter p = (l.filter p).map f := by
  induction l with
  | nil => rfl
  | cons a t ih =>
    cases hpa : p a with
    | true =>
      rw [List.map_cons, if_pos hpa, List.filter_cons_of_pos (hpf a hpa),
        List.filter_cons_of_pos hpa, List.map_cons, ih]
    | false =>
      rw [List.map_cons, if_neg (by simp [hpa]), List.filter_cons_of_neg (by simp [hpa]),
        List.filter_cons_of_neg (by simp [hpa]), ih]

/-- An update-session input with the given id and no optional field. -/
def updInput (sid : String) : UpdateSessionInput :=
  { id := sid, fields := emptySessionFields }

/-- A store with two sessions of `u1`, one of `u2`, and exercises under
both of `u1`'s sessions plus a foreign-owned exercise under `s1`. -/
def wStoreC1 : Store :=
  { sessions := [sampleSession "s1" "u1", sampleSession "s2" "u1", sampleSession "s3" "u2"]
    exercises := [sampleExercise "e1" "s1" "u1", sampleExercise "e2" "s2" "u1",
                  sampleExercise "e3" "s1" "u2"] }

/-- A store where session `s1` and exercise `e1` belong to `u2`, while the
caller `u1` owns session `s2`. -/
def wStoreC3 : Store :=
  { sessions := [sampleSession "s1" "u2", sampleSession "s2" "u1"]
    exercises := [sampleExercise "e1" "s2" "u2"] }

/-! ### Claim theorems -/

/-- C1: for every caller and every session id owned by that caller,
`deleteWorkoutSession` removes exactly the exercises whose `sessionId`
equals that id and whose `userId` equals the caller, removes the session,
and returns the deleted id; every exercise of the caller under a different
session and every record of other users stays in the store. -/
theorem deleteSession_cascade_exact (uid sid : String) (s : Store) (r : WorkoutSession)
    (hr : r ∈ s.sessions) (hid : r.id = sid) (huid : r.userId = uid) :
    (deleteWorkoutSession (some uid) sid s).1 = .ok sid ∧
    (deleteWorkoutSession (some uid) sid s).2.exercises
      = s.exercises.filter (fun e => !exerciseBySession sid uid e) ∧
    (deleteWorkoutSession (some uid) sid s).2.sessions
      = s.sessions.filter (fun x => !sessionKey sid uid x) ∧
    (∀ e ∈ s.exercises, e.userId ≠ uid ∨ e.sessionId ≠ sid →
      e ∈ (deleteWorkoutSession (some uid) sid s).2.exercises) ∧
    (∀ e ∈ s.exercises, e.sessionId = sid → e.userId = uid →
      e ∉ (deleteWorkoutSession (some uid) sid s).2.exercises) ∧
    (∀ x ∈ s.sessions, x.id ≠ sid ∨ x.userId ≠ uid →
      x ∈ (deleteWorkoutSession (some uid) sid s).2.sessions) := by
  have hp : sessionKey sid uid r = true := by simp [sessionKey, hid, huid]
  have hmem : r ∈ s.sessions.filter (sessionKey sid uid) := List.mem_filter.mpr ⟨hr, hp⟩
  have hdel : deleteWorkoutSession (some uid) sid s
      = (.ok sid, { sessions := s.sessions.filter (fun x => !sessionKey sid uid x),
                    exercises := s.exercises.filter (fun e => !exerciseBySession sid uid e) }) := by
    cases hfl : s.sessions.filter (sessionKey sid uid) with
    | nil =>
      rw [hfl] at hmem
      cases hmem
    | cons a rest => simp [deleteWorkoutSession, requireUser, getSessionForUser, hfl]
  rw [hdel]
  refine ⟨rfl, rfl, rfl, ?_, ?_, ?_⟩
  · intro e he hcond
    refine List.mem_filter.mpr ⟨he, ?_⟩
    rcases hcond with h | h
    · simp [exerciseBySession, h]
    · simp [exerciseBySession, h]
  · intro e he h1 h2 hin
    have hkeep := (List.mem_filter.mp hin).2
    simp [exerciseBySession, h1, h2] at hkeep
  · intro x hx hcond
    refine List.mem_filter.mpr ⟨hx, ?_⟩
    rcases hcond with h | h
    · simp [sessionKey, h]
    · simp [sessionKey, h]

/-- Witness for C1: deleting `u1`'s session `s1` removes exactly its
`u1`-owned exercises; `e2` (other session) and `e3` (other user) survive. -/
theorem deleteSession_cascade_exact_witness :
    (deleteWorkoutSession (some "u1") "s1" wStoreC1).1 = .ok "s1" ∧
    sampleExercise "e2" "s2" "u1" ∈ (deleteWorkoutSession (some "u1") "s1" wStoreC1).2.exercises ∧
    sampleExercise "e3" "s1" "u2" ∈ (deleteWorkoutSession (some "u1") "s1" wStoreC1).2.exercises ∧
    sampleExercise "e1" "s1" "u1" ∉ (deleteWorkoutSession (some "u1") "s1" wStoreC1).2.exercises ∧
    sampleSession "s2" "u1" ∈ (deleteWorkoutSession (some "u1") "s1" wStoreC1).2.sessions := by
  have h := deleteSession_cascade_exact "u1" "s1" wStoreC1 (sampleSession "s1" "u1")
    (by decide) rfl rfl
  exact ⟨h.1,
    h.2.2.2.1 (sampleExercise "e2" "s2" "u1") (by decide) (by right; decide),
    h.2.2.2.1 (sampleExercise "e3" "s1" "u2") (by decide) (by left; decide),
    h.2.2.2.2.1 (sampleExercise "e1" "s1" "u1") (by decide) rfl rfl,
    h.2.2.2.2.2 (sampleSession "s2" "u1") (by decide) (by left; decide)⟩

/-- C3: every by-id lookup is scoped by both the id and the caller's
`userId`: when no row matches both — whether the id is absent altogether or
present but owned by a different user — `updateWorkoutSession`,
`deleteWorkoutSession`, `getWorkoutSessionWithExercises`,
`upsertWorkoutExercise` (with an id) and `deleteWorkoutExercise` all fail
with exactly the NotFound error, leaving the store unchanged. -/
theorem lookup_notFound_scoped (uid sid eid sid2 : String) (s : Store) (now : Int)
    (freshId : String) (uinp : UpdateSessionInput) (einp : UpsertExerciseInput)
    (r2 : WorkoutSession)
    (huv : validSessionFields uinp.fields = true) (huid : uinp.id = sid)
    (hev : validUpsertExerciseInput einp = true) (heid : einp.id = some eid)
    (hene : eid.isEmpty = false) (hesid : einp.sessionId = sid2)
    (hr2 : r2 ∈ s.sessions) (hr2id : r2.id = sid2) (hr2uid : r2.userId = uid)
    (hs : ∀ x ∈ s.sessions, sessionKey sid uid x = false)
    (he : ∀ e ∈ s.exercises, exerciseKey eid uid e = false) :
    updateWorkoutSession (some uid) uinp now s = (.error .notFound, s) ∧
    deleteWorkoutSession (some uid) sid s = (.error .notFound, s) ∧
    getWorkoutSessionWithExercises (some uid) sid s = (.error .notFound, s) ∧
    upsertWorkoutExercise (some uid) einp freshId now s = (.error .notFound, s) ∧
    deleteWorkoutExercise (some uid) eid s = (.error .notFound, s) := by
  have hfl : s.sessions.filter (sessionKey sid uid) = [] := by
    rw [List.filter_eq_nil_iff]
    intro x hx
    simp [hs x hx]
  have hfe : s.exercises.filter (exerciseKey eid uid) = [] := by
    rw [List.filter_eq_nil_iff]
    intro x hx
    simp [he x hx]
  have hp2 : sessionKey sid2 uid r2 = true := by simp [sessionKey, hr2id, hr2uid]
  have hmem2 : r2 ∈ s.sessions.filter (sessionKey sid2 uid) := List.mem_filter.mpr ⟨hr2, hp2⟩
  refine ⟨?_, ?_, ?_, ?_, ?_⟩
  · simp [updateWorkoutSession, requireUser, getSessionForUser, huv, huid, hfl]
  · simp [deleteWorkoutSession, requireUser, getSessionForUser, hfl]
  · simp [getWorkoutSessionWithExercises, requireUser, getSessionForUser, hfl]
  · cases hfl2 : s.sessions.filter (sessionKey sid2 uid) with
    | nil =>
      rw [hfl2] at hmem2
      cases hmem2
    | cons a rest =>
      simp [upsertWorkoutExercise, requireUser, getSessionForUser, hev, heid, hene, hesid,
        hfl2, hfe]
  · simp [deleteWorkoutExercise, requireUser, hfe]

/-- Witness for C3: session `s1` and exercise `e1` exist but belong to
`u2`; every lookup by caller `u1` answers NotFound without touching the
store. -/
theorem lookup_notFound_scoped_witness :
    updateWorkoutSession (some "u1") (updInput "s1") 7 wStoreC3 = (.error .notFound, wStoreC3) ∧
    deleteWorkoutSession (some "u1") "s1" wStoreC3 = (.error .notFound, wStoreC3) ∧
    getWorkoutSessionWithExercises (some "u1") "s1" wStoreC3 = (.error .notFound, wStoreC3) ∧
    upsertWorkoutExercise (some "u1") (sampleUpsertInput (some "e1") "s2") "f1" 7 wStoreC3
      = (.error .notFound, wStoreC3) ∧
    deleteWorkoutExercise (some "u1") "e1" wStoreC3 = (.error .notFound, wStoreC3) :=
  lookup_notFound_scoped "u1" "s1" "e1" "s2" wStoreC3 7 "f1" (updInput "s1")
    (sampleUpsertInput (some "e1") "s2") (sampleSession "s2" "u1")
    (by decide) rfl (by decide) rfl (by decide) rfl (by decide) rfl rfl
    (by decide) (by decide)

/-- C2: for every authenticated caller and every valid input,
`createWorkoutSession` returns a record whose `userId` is the caller's id
(the input schema carries no `userId` field at all), whose `id` is the
freshly generated uuid, whose `createdAt` and `updatedAt` are the current
time, and whose `workoutDate` defaults to the current time when not
supplied; the record is appended to the store. -/
theorem createSession_owner_and_defaults (uid : String) (f : SessionFields)
    (freshId : String) (now : Int) (s : Store)
    (hval : validSessionFields f = true) :
    ∃ session, createWorkoutSession (some uid) f freshId now s
        = (.ok session, { s with sessions := s.sessions ++ [session] }) ∧
      session.userId = uid ∧ session.id = freshId ∧
      session.createdAt = now ∧ session.updatedAt = now ∧
      session.workoutDate = f.workoutDate.getD now ∧
      (f.workoutDate = none → session.workoutDate = now) := by
  refine ⟨{ id := freshId
            userId := uid
            title := f.title
            workoutDate := f.workoutDate.getD now
            startTime := f.startTime
            endTime := f.endTime
            workoutType := f.workoutType
            notes := f.notes
            totalDurationMinutes := f.totalDurationMinutes
            totalCalories := f.totalCalories
            createdAt := now
            updatedAt := now }, ?_, rfl, rfl, rfl, rfl, rfl, ?_⟩
  · simp [createWorkoutSession, requireUser, hval]
  · intro h
    simp [h]

/-- Witness for C2 at a concrete input. -/
theorem createSession_owner_and_defaults_witness :
    validSessionFields emptySessionFields = true ∧
    (∃ session, createWorkoutSession (some "u1") emptySessionFields "id1" 5 emptyStore
        = (.ok session, { emptyStore with sessions := emptyStore.sessions ++ [session] }) ∧
      session.userId = "u1" ∧ session.id = "id1" ∧
      session.createdAt = 5 ∧ session.updatedAt = 5 ∧
      session.workoutDate = emptySessionFields.workoutDate.getD 5 ∧
      (emptySessionFields.workoutDate = none → session.workoutDate = 5)) :=
  ⟨by decide, createSession_owner_and_defaults "u1" emptySessionFields "id1" 5 emptyStore
    (by decide)⟩

/-- C4: updating a session id that has no row owned by the caller — whether
the id is absent from the table or present but owned by a different user —
fails with NotFound and leaves the store entirely unchanged. -/
theorem updateSession_notFound_no_mutation (uid : String) (inp : UpdateSessionInput)
    (now : Int) (s : Store)
    (hval : validSessionFields inp.fields = true)
    (hnone : ∀ x ∈ s.sessions, sessionKey inp.id uid x = false) :
    updateWorkoutSession (some uid) inp now s = (.error .notFound, s) := by
  have hfl : s.sessions.filter (sessionKey inp.id uid) = [] := by
    rw [List.filter_eq_nil_iff]
    intro x hx
    simp [hnone x hx]
  simp [updateWorkoutSession, requireUser, getSessionForUser, hval, hfl]

/-- Witness for C4: the session exists but belongs to user `u2`; caller
`u1` gets NotFound and the store is returned unchanged. -/
theorem updateSession_notFound_no_mutation_witness :
    validSessionFields (updInput "s1").fields = true ∧
    (∀ x ∈ ({ sessions := [sampleSession "s1" "u2"], exercises := [] } : Store).sessions,
      sessionKey (updInput "s1").id "u1" x = false) ∧
    updateWorkoutSession (some "u1") (updInput "s1") 7
        { sessions := [sampleSession "s1" "u2"], exercises := [] }
      = (.error .notFound, { sessions := [sampleSession "s1" "u2"], exercises := [] }) :=
  ⟨by decide, by decide,
    updateSession_notFound_no_mutation "u1" (updInput "s1") 7
      { sessions := [sampleSession "s1" "u2"], exercises := [] } (by decide) (by decide)⟩

/-- C5: for a session owned by the caller, `updateWorkoutSession` applies
exactly the supplied fields and always refreshes `updatedAt`; with an empty
field set the stored row changes only in `updatedAt`, every other field
(`id`, `userId`, `title`, `workoutDate`, `startTime`, `endTime`,
`workoutType`, `notes`, `totalDurationMinutes`, `totalCalories`,
`createdAt`) keeps its value, other rows are untouched, and the returned
record is exactly the post-update stored row. -/
theorem updateSession_applies_present_fields (uid : String) (inp : UpdateSessionInput)
    (now : Int) (s : Store) (r : WorkoutSession)
    (hwf : s.WF) (hval : validSessionFields inp.fields = true)
    (hr : r ∈ s.sessions) (hid : r.id = inp.id) (huid : r.userId = uid) :
    updateWorkoutSession (some uid) inp now s
      = (.ok (some (applySessionUpdate (mkSessionUpdateData inp.fields now) r)),
         { s with sessions := s.sessions.map (fun x =>
             if sessionKey inp.id uid x then
               applySessionUpdate (mkSessionUpdateData inp.fields now) x
             else x) }) ∧
    (applySessionUpdate (mkSessionUpdateData inp.fields now) r).updatedAt = now ∧
    (applySessionUpdate (mkSessionUpdateData inp.fields now) r).id = r.id ∧
    (applySessionUpdate (mkSessionUpdateData inp.fields now) r).userId = r.userId ∧
    (applySessionUpdate (mkSessionUpdateData inp.fields now) r).createdAt = r.createdAt ∧
    (inp.fields = emptySessionFields →
      applySessionUpdate (mkSessionUpdateData inp.fields now) r = { r with updatedAt := now }) ∧
    ((updateWorkoutSession (some uid) inp now s).2.sessions.filter (sessionKey inp.id uid)
      = [applySessionUpdate (mkSessionUpdateData inp.fields now) r]) ∧
    (∀ x ∈ s.sessions, sessionKey inp.id uid x = false →
      x ∈ (updateWorkoutSession (some uid) inp now s).2.sessions) ∧
    (updateWorkoutSession (some uid) inp now s).2.exercises = s.exercises := by
  have hp : sessionKey inp.id uid r = true := by simp [sessionKey, hid, huid]
  have hkey : ∀ x, sessionKey inp.id uid x = true → x.id = r.id := by
    intro x hx
    simp only [sessionKey, Bool.and_eq_true, beq_iff_eq] at hx
    rw [hx.1, hid]
  have hfl : s.sessions.filter (sessionKey inp.id uid) = [r] :=
    filter_eq_singleton_of_key (fun x => x.id) _ _ _ hwf.1 hr hp hkey
  have hpf : ∀ x, sessionKey inp.id uid x = true →
      sessionKey inp.id uid (applySessionUpdate (mkSessionUpdateData inp.fields now) x) = true := by
    intro x hx
    simpa [sessionKey, applySessionUpdate] using hx
  have hfil2 : ((s.sessions.map (fun x =>
      if sessionKey inp.id uid x then applySessionUpdate (mkSessionUpdateData inp.fields now) x
      else x)).filter (sessionKey inp.id uid))
      = [applySessionUpdate (mkSessionUpdateData inp.fields now) r] := by
    rw [filter_map_update _ _ _ hpf, hfl]
    rfl
  have hupd : updateWorkoutSession (some uid) inp now s
      = (.ok (some (applySessionUpdate (mkSessionUpdateData inp.fields now) r)),
         { s with sessions := s.sessions.map (fun x =>
             if sessionKey inp.id uid x then
               applySessionUpdate (mkSessionUpdateData inp.fields now) x
             else x) }) := by
    simp [updateWorkoutSession, requireUser, getSessionForUser, hval, hfl, hfil2]
  refine ⟨hupd, rfl, rfl, rfl, rfl, ?_, ?_, ?_, ?_⟩
  · intro hemp
    rw [hemp]
    rfl
  · rw [hupd]
    exact hfil2
  · intro x hx hfalse
    rw [hupd]
    exact List.mem_map.mpr ⟨x, hx, by simp [hfalse]⟩
  · rw [hupd]

/-- Witness for C5: an empty-field update of `u1`'s session `s1` refreshes
only `updatedAt`, leaves the `u2` session untouched, and returns the
post-update stored row. -/
theorem updateSession_applies_present_fields_witness :
    updateWorkoutSession (some "u2") (updInput "s1") 9 wStoreC3
      = (.ok (some (applySessionUpdate
            (mkSessionUpdateData (updInput "s1").fields 9) (sampleSession "s1" "u2"))),
         { wStoreC3 with sessions := wStoreC3.sessions.map (fun x =>
             if sessionKey (updInput "s1").id "u2" x then
               applySessionUpdate (mkSessionUpdateData (updInput "s1").fields 9) x
             else x) }) ∧
    applySessionUpdate (mkSessionUpdateData (updInput "s1").fields 9) (sampleSession "s1" "u2")
      = { sampleSession "s1" "u2" with updatedAt := 9 } := by
  have h := updateSession_applies_present_fields "u2" (updInput "s1") 9 wStoreC3
    (sampleSession "s1" "u2") ⟨by decide, by decide⟩ (by decide) (by decide) rfl rfl
  exact ⟨h.1, h.2.2.2.2.2.1 rfl⟩

/-- C6: `listMyWorkoutSessions` returns the caller's sessions starting at
offset `(page−1)×pageSize`, at most `pageSize` of them, echoing back `page`
and `pageSize`; with 3 sessions of the caller, `page = 2` and
`pageSize = 1` yield exactly one item, the second session. -/
theorem listSessions_offset_pagination (uid : String) (i : ListInput) (s : Store)
    (hval : validListInput i = true) :
    ∃ out, listMyWorkoutSessions (some uid) i s = (.ok out, s) ∧
      out.page = i.page.getD 1 ∧ out.pageSize = i.pageSize.getD 20 ∧
      out.items = ((s.sessions.filter (fun r => r.userId == uid)).drop
          ((i.page.getD 1 - 1) * i.pageSize.getD 20).toNat).take (i.pageSize.getD 20).toNat ∧
      out.items.length ≤ (i.pageSize.getD 20).toNat ∧
      ((s.sessions.filter (fun r => r.userId == uid)).length = 3 → i.page = some 2 →
        i.pageSize = some 1 →
        out.items.length = 1 ∧
          out.items.head? = (s.sessions.filter (fun r => r.userId == uid))[1]?) := by
  refine ⟨{ items := ((s.sessions.filter (fun r => r.userId == uid)).drop
                ((i.page.getD 1 - 1) * i.pageSize.getD 20).toNat).take (i.pageSize.getD 20).toNat
            total := (((s.sessions.filter (fun r => r.userId == uid)).drop
                ((i.page.getD 1 - 1) * i.pageSize.getD 20).toNat).take
                  (i.pageSize.getD 20).toNat).length
            page := i.page.getD 1
            pageSize := i.pageSize.getD 20 }, ?_, rfl, rfl, rfl, ?_, ?_⟩
  · simp [listMyWorkoutSessions, requireUser, hval]
  · exact List.length_take_le _ _
  · intro h3 hp hps
    obtain ⟨a, b, c, habc⟩ := List.length_eq_three.mp h3
    rw [hp, hps, habc]
    simp

/-- Witness for C6 on a store holding exactly three sessions of `u1`. -/
theorem listSessions_offset_pagination_witness :
    validListInput { page := some 2, pageSize := some 1 } = true ∧
    (∃ out, listMyWorkoutSessions (some "u1") { page := some 2, pageSize := some 1 } wStoreC1
        = (.ok out, wStoreC1) ∧
      out.page = (some (2 : Int)).getD 1 ∧ out.pageSize = (some (1 : Int)).getD 20 ∧
      out.items = ((wStoreC1.sessions.filter (fun r => r.userId == "u1")).drop
          (((some (2 : Int)).getD 1 - 1) * (some (1 : Int)).getD 20).toNat).take
            ((some (1 : Int)).getD 20).toNat ∧
      out.items.length ≤ ((some (1 : Int)).getD 20).toNat ∧
      ((wStoreC1.sessions.filter (fun r => r.userId == "u1")).length = 3 →
        some (2 : Int) = some 2 → some (1 : Int) = some 1 →
        out.items.length = 1 ∧
          out.items.head? = (wStoreC1.sessions.filter (fun r => r.userId == "u1"))[1]?)) :=
  ⟨by decide, listSessions_offset_pagination "u1" { page := some 2, pageSize := some 1 }
    wStoreC1 (by decide)⟩

/-- C7: the `total` field of `listMyWorkoutSessions` equals the number of
items on the returned page, not the full count of the caller's sessions:
with 3 stored sessions, `page = 2`, `pageSize = 1`, `total` is 1, not 3. -/
theorem listSessions_total_counts_page (uid : String) (i : ListInput) (s : Store)
    (hval : validListInput i = true) :
    ∃ out, listMyWorkoutSessions (some uid) i s = (.ok out, s) ∧
      out.total = out.items.length ∧
      ((s.sessions.filter (fun r => r.userId == uid)).length = 3 → i.page = some 2 →
        i.pageSize = some 1 →
        out.total = 1 ∧ out.total ≠ (s.sessions.filter (fun r => r.userId == uid)).length) := by
  refine ⟨{ items := ((s.sessions.filter (fun r => r.userId == uid)).drop
                ((i.page.getD 1 - 1) * i.pageSize.getD 20).toNat).take (i.pageSize.getD 20).toNat
            total := (((s.sessions.filter (fun r => r.userId == uid)).drop
                ((i.page.getD 1 - 1) * i.pageSize.getD 20).toNat).take
                  (i.pageSize.getD 20).toNat).length
            page := i.page.getD 1
            pageSize := i.pageSize.getD 20 }, ?_, rfl, ?_⟩
  · simp [listMyWorkoutSessions, requireUser, hval]
  · intro h3 hp hps
    obtain ⟨a, b, c, habc⟩ := List.length_eq_three.mp h3
    rw [hp, hps, habc]
    simp

/-- Witness for C7: same three-session store; the reported `total` is 1
while the caller owns 3 sessions. -/
theorem listSessions_total_counts_page_witness :
    validListInput { page := some 2, pageSize := some 1 } = true ∧
    (∃ out, listMyWorkoutSessions (some "u1") { page := some 2, pageSize := some 1 } wStoreC1
        = (.ok out, wStoreC1) ∧
      out.total = out.items.length ∧
      ((wStoreC1.sessions.filter (fun r => r.userId == "u1")).length = 3 →
        some (2 : Int) = some 2 → some (1 : Int) = some 1 →
        out.total = 1 ∧
          out.total ≠ (wStoreC1.sessions.filter (fun r => r.userId == "u1")).length)) :=
  ⟨by decide, listSessions_total_counts_page "u1" { page := some 2, pageSize := some 1 }
    wStoreC1 (by decide)⟩

/-- C8: `upsertWorkoutExercise` without an id always inserts: for a target
session owned by the caller and a `randomUUID()` result distinct from every
stored exercise id, a new row is appended whose `id` is that fresh uuid,
whose `userId` is the caller and whose `createdAt` is the current time —
even when `name` and `sessionId` duplicate an existing row — and the new
record is returned. -/
theorem upsertExercise_insert_always_new (uid : String) (i : UpsertExerciseInput)
    (freshId : String) (now : Int) (s : Store) (r : WorkoutSession)
    (hval : validUpsertExerciseInput i = true) (hid : i.id = none)
    (hr : r ∈ s.sessions) (hrid : r.id = i.sessionId) (hruid : r.userId = uid)
    (hfresh : ∀ e ∈ s.exercises, e.id ≠ freshId) :
    ∃ ex, upsertWorkoutExercise (some uid) i freshId now s
        = (.ok (some ex), { s with exercises := s.exercises ++ [ex] }) ∧
      ex.id = freshId ∧ ex.userId = uid ∧ ex.createdAt = now ∧
      ex.name = i.name ∧ ex.sessionId = i.sessionId ∧
      (∀ e ∈ s.exercises, e.id ≠ ex.id) := by
  have hp : sessionKey i.sessionId uid r = true := by simp [sessionKey, hrid, hruid]
  have hmem : r ∈ s.sessions.filter (sessionKey i.sessionId uid) := List.mem_filter.mpr ⟨hr, hp⟩
  refine ⟨{ id := freshId
            sessionId := i.sessionId
            userId := uid
            name := i.name
            category := i.category
            sets := i.sets
            repsPerSet := i.repsPerSet
            weightPerRep := i.weightPerRep
            distanceKm := i.distanceKm
            durationMinutes := i.durationMinutes
            caloriesBurned := i.caloriesBurned
            notes := i.notes
            createdAt := now }, ?_, rfl, rfl, rfl, rfl, rfl, hfresh⟩
  cases hfl : s.sessions.filter (sessionKey i.sessionId uid) with
  | nil =>
    rw [hfl] at hmem
    cases hmem
  | cons a rest =>
    simp [upsertWorkoutExercise, requireUser, getSessionForUser, insertWorkoutExercise,
      hval, hid, hfl]

/-- Witness for C8: the input duplicates the `name` and `sessionId` of the
stored exercise `e1`, yet a brand-new row with id `e9` is appended. -/
theorem upsertExercise_insert_always_new_witness :
    validUpsertExerciseInput (sampleUpsertInput none "s1") = true ∧
    (∃ ex, upsertWorkoutExercise (some "u1") (sampleUpsertInput none "s1") "e9" 3 wStoreC1
        = (.ok (some ex), { wStoreC1 with exercises := wStoreC1.exercises ++ [ex] }) ∧
      ex.id = "e9" ∧ ex.userId = "u1" ∧ ex.createdAt = 3 ∧
      ex.name = (sampleUpsertInput none "s1").name ∧
      ex.sessionId = (sampleUpsertInput none "s1").sessionId ∧
      (∀ e ∈ wStoreC1.exercises, e.id ≠ ex.id)) :=
  ⟨by decide, upsertExercise_insert_always_new "u1" (sampleUpsertInput none "s1") "e9" 3
    wStoreC1 (sampleSession "s1" "u1") (by decide) rfl (by decide) rfl rfl (by decide)⟩

/-- C9: `upsertWorkoutExercise` with the id of an exercise owned by the
caller keeps the exercise's `id`, `userId` and `createdAt`, always
overwrites `sessionId` and `name` with the supplied values, and only the
target `sessionId` is required to name a session owned by the caller — the
exercise's current `sessionId` is never checked, so the exercise can be
re-parented to any owned session. -/
theorem upsertExercise_update_reparent (uid eid freshId : String) (i : UpsertExerciseInput)
    (now : Int) (s : Store) (r : WorkoutSession) (e : WorkoutExercise)
    (hwf : s.WF) (hval : validUpsertExerciseInput i = true)
    (hid : i.id = some eid) (hne : eid.isEmpty = false)
    (hr : r ∈ s.sessions) (hrid : r.id = i.sessionId) (hruid : r.userId = uid)
    (he : e ∈ s.exercises) (heid : e.id = eid) (heuid : e.userId = uid) :
    upsertWorkoutExercise (some uid) i freshId now s
      = (.ok (some (applyExerciseUpdate (mkExerciseUpdateData i) e)),
         { s with exercises := s.exercises.map (fun x =>
             if exerciseKey eid uid x then applyExerciseUpdate (mkExerciseUpdateData i) x
             else x) }) ∧
    (applyExerciseUpdate (mkExerciseUpdateData i) e).id = e.id ∧
    (applyExerciseUpdate (mkExerciseUpdateData i) e).userId = e.userId ∧
    (applyExerciseUpdate (mkExerciseUpdateData i) e).createdAt = e.createdAt ∧
    (applyExerciseUpdate (mkExerciseUpdateData i) e).sessionId = i.sessionId ∧
    (applyExerciseUpdate (mkExerciseUpdateData i) e).name = i.name := by
  have hps : sessionKey i.sessionId uid r = true := by simp [sessionKey, hrid, hruid]
  have hmems : r ∈ s.sessions.filter (sessionKey i.sessionId uid) :=
    List.mem_filter.mpr ⟨hr, hps⟩
  have hpe : exerciseKey eid uid e = true := by simp [exerciseKey, heid, heuid]
  have hkey : ∀ x, exerciseKey eid uid x = true → x.id = e.id := by
    intro x hx
    simp only [exerciseKey, Bool.and_eq_true, beq_iff_eq] at hx
    rw [hx.1, heid]
  have hfe : s.exercises.filter (exerciseKey eid uid) = [e] :=
    filter_eq_singleton_of_key (fun x => x.id) _ _ _ hwf.2 he hpe hkey
  have hpf : ∀ x, exerciseKey eid uid x = true →
      exerciseKey eid uid (applyExerciseUpdate (mkExerciseUpdateData i) x) = true := by
    intro x hx
    simpa [exerciseKey, applyExerciseUpdate] using hx
  have hfil2 : ((s.exercises.map (fun x =>
      if exerciseKey eid uid x then applyExerciseUpdate (mkExerciseUpdateData i) x else x)).filter
        (exerciseKey eid uid))
      = [applyExerciseUpdate (mkExerciseUpdateData i) e] := by
    rw [filter_map_update _ _ _ hpf, hfe]
    rfl
  refine ⟨?_, rfl, rfl, rfl, rfl, rfl⟩
  cases hfl : s.sessions.filter (sessionKey i.sessionId uid) with
  | nil =>
    rw [hfl] at hmems
    cases hmems
  | cons a rest =>
    simp [upsertWorkoutExercise, requireUser, getSessionForUser, hval, hid, hne, hfl,
      hfe, hfil2]

/-- Witness for C9: exercise `e2` currently lives under session `s2`; an
upsert naming session `s1` re-parents it while keeping id, owner and
creation time. -/
theorem upsertExercise_update_reparent_witness :
    upsertWorkoutExercise (some "u1") (sampleUpsertInput (some "e2") "s1") "f1" 4 wStoreC1
      = (.ok (some (applyExerciseUpdate (mkExerciseUpdateData (sampleUpsertInput (some "e2") "s1"))
            (sampleExercise "e2" "s2" "u1"))),
         { wStoreC1 with exercises := wStoreC1.exercises.map (fun x =>
             if exerciseKey "e2" "u1" x then
               applyExerciseUpdate (mkExerciseUpdateData (sampleUpsertInput (some "e2") "s1")) x
             else x) }) ∧
    (applyExerciseUpdate (mkExerciseUpdateData (sampleUpsertInput (some "e2") "s1"))
        (sampleExercise "e2" "s2" "u1")).sessionId = "s1" := by
  have h := upsertExercise_update_reparent "u1" "e2" "f1" (sampleUpsertInput (some "e2") "s1")
    4 wStoreC1 (sampleSession "s1" "u1") (sampleExercise "e2" "s2" "u1")
    ⟨by decide, by decide⟩ (by decide) rfl (by decide) (by decide) rfl rfl (by decide) rfl rfl
  exact ⟨h.1, h.2.2.2.2.1⟩

/-- C10: the framework checks the input schema before the handler resolves
the caller, so a request whose input the schema rejects fails with the
invalid-input error — not Unauthorized — even when no caller identity is
present at all. -/
theorem validation_before_auth (f : SessionFields) (uinp : UpdateSessionInput)
    (li : ListInput) (ei : UpsertExerciseInput) (freshId : String) (now : Int) (s : Store) :
    (validSessionFields f = false →
      createWorkoutSession none f freshId now s = (.error .invalidInput, s)) ∧
    (validSessionFields uinp.fields = false →
      updateWorkoutSession none uinp now s = (.error .invalidInput, s)) ∧
    (validListInput li = false →
      listMyWorkoutSessions none li s = (.error .invalidInput, s)) ∧
    (validUpsertExerciseInput ei = false →
      upsertWorkoutExercise none ei freshId now s = (.error .invalidInput, s)) := by
  refine ⟨fun h => ?_, fun h => ?_, fun h => ?_, fun h => ?_⟩
  · simp [createWorkoutSession, h]
  · simp [updateWorkoutSession, h]
  · simp [listMyWorkoutSessions, h]
  · simp [upsertWorkoutExercise, h]

/-- Witness for C10: an upsert request with an empty exercise name and
`sets = 0` and no resolved caller is rejected as invalid input, not as
Unauthorized. -/
theorem validation_before_auth_witness :
    validUpsertExerciseInput
        { sampleUpsertInput none "s1" with name := "", sets := some 0 } = false ∧
    upsertWorkoutExercise none
        { sampleUpsertInput none "s1" with name := "", sets := some 0 } "f1" 0 emptyStore
      = (.error .invalidInput, emptyStore) :=
  ⟨by decide,
    (validation_before_auth emptySessionFields (updInput "s1") { page := none, pageSize := none }
        { sampleUpsertInput none "s1" with name := "", sets := some 0 } "f1" 0
        emptyStore).2.2.2 (by decide)⟩

end FitnessTracker
